import Mathlib

/-!
Verification of the Chromebook detection and spoofing engine
(`Scripts/chromebook_spoofer.py`).

The file embeds the data model and the methods of `ChromebookSpoofer`
(`is_chromebook`, `get_chromebook_info`, `spoof_igpu_for_chromebook`,
`spoof_cpu_for_chromebook`, `generate_chromebook_report`) as executable
Lean functions, and proves theorems about the classification and
substitution rules.

Hardware reports are nested Python dictionaries read with `.get` and a
default; every section and field is therefore modelled as an `Option`,
with accessor functions applying the same defaults the source applies.
The static PCI reference table `pci_data.ChromebookIDs` is not part of
the source slice; it is injected as an explicit parameter (an
association list from device-identifier to the list of qualifying
subsystem identifiers).
-/

/-! ## String helpers mirroring the Python string operations -/

/-- Boolean test that the first character list is an initial segment of
the second, mirroring Python `startswith` on the underlying text. -/
def leadsWith : List Char → List Char → Bool
  | [], _ => true
  | _ :: _, [] => false
  | a :: as, b :: bs => a == b && leadsWith as bs

/-- Auxiliary scan: does `needle` occur contiguously inside the list? -/
def strContainsAux (needle : List Char) : List Char → Bool
  | [] => needle.isEmpty
  | c :: t => if leadsWith needle (c :: t) then true else strContainsAux needle t

/-- Python substring containment `sub in s`. -/
def strContains (s sub : String) : Bool :=
  strContainsAux sub.data s.data

/-- Python `s.upper()`. -/
def strUpper (s : String) : String :=
  ⟨s.data.map Char.toUpper⟩

/-- Python `s.startswith(p)`. -/
def strStartsWith (s p : String) : Bool :=
  leadsWith p.data s.data

/-! ## Data model: the hardware report dictionary -/

/-- The `Motherboard` section of a hardware report; the `Name` field may
be absent. -/
structure MotherboardSection where
  name : Option String
deriving DecidableEq

/-- One entry of the `System Devices` section. -/
structure DeviceProps where
  deviceId : Option String
  subsystemId : Option String
deriving DecidableEq

/-- One entry of the `GPU` section. -/
structure GpuProps where
  manufacturer : Option String
  deviceId : Option String
  deviceType : Option String
deriving DecidableEq

/-- The `CPU` section of a hardware report. -/
structure CpuSection where
  processorName : Option String
  codename : Option String
deriving DecidableEq

/-- A hardware report: any section may be absent (Python `dict.get`
returns the default for missing keys). Mapping-valued sections are
association lists in insertion order, matching Python dict iteration. -/
structure HardwareReport where
  motherboard : Option MotherboardSection
  systemDevices : Option (List (String × DeviceProps))
  gpu : Option (List (String × GpuProps))
  cpu : Option CpuSection
deriving DecidableEq

/-- Modelled from the spec: the Reference Dataset
(`pci_data.ChromebookIDs`, imported by the source but not part of the
source slice) is a static mapping from a device-identifier string to the
set of subsystem-identifier strings that signal the target platform.
It is modelled as an association list and injected as a parameter, as
§9 of the spec recommends. -/
abbrev ChromebookIDs := List (String × List String)

/-- Dictionary lookup in the reference dataset: `ChromebookIDs[device_id]`
when `device_id in ChromebookIDs`, otherwise `none`. -/
def lookupIDs (ids : ChromebookIDs) (deviceId : String) : Option (List String) :=
  (ids.find? fun p => p.1 == deviceId).map fun p => p.2

/-- Python `hardware_report.get("Motherboard", ...).get("Name", d)`. -/
def mbName (r : HardwareReport) (d : String) : String :=
  match r.motherboard with
  | none => d
  | some m => m.name.getD d

/-- Python `hardware_report.get("System Devices", ...)` (empty dict default). -/
def sysDevices (r : HardwareReport) : List (String × DeviceProps) :=
  r.systemDevices.getD []

/-- Python `hardware_report.get("GPU", ...)` (empty dict default). -/
def gpuList (r : HardwareReport) : List (String × GpuProps) :=
  r.gpu.getD []

/-- Python `hardware_report.get("CPU", ...).get("Processor Name", "")`. -/
def cpuProcName (r : HardwareReport) : String :=
  match r.cpu with
  | none => ""
  | some c => c.processorName.getD ""

/-- Python `hardware_report.get("CPU", ...).get("Codename", "")`. -/
def cpuCodename (r : HardwareReport) : String :=
  match r.cpu with
  | none => ""
  | some c => c.codename.getD ""

/-! ## Platform detector and device enumerator
(source lines 17-76: `is_chromebook`, `get_chromebook_info`) -/

/-- Body of the detection loop (source lines 37-42): the device
identifier is a key of the reference dataset and the subsystem
identifier is a member of the associated set. -/
def deviceMatches (ids : ChromebookIDs) (props : DeviceProps) : Bool :=
  match lookupIDs ids (props.deviceId.getD "") with
  | some subs => subs.contains (props.subsystemId.getD "")
  | none => false

/-- Source `is_chromebook` (lines 17-44): motherboard name contains
"GOOGLE" after upper-casing, or some system device matches the
reference dataset. -/
def is_chromebook (ids : ChromebookIDs) (r : HardwareReport) : Bool :=
  if strContains (strUpper (mbName r "")) "GOOGLE" then true
  else (sysDevices r).any fun d => deviceMatches ids d.2

/-- One matched device descriptor in the diagnostic info. -/
structure ChromebookDevice where
  name : String
  deviceId : String
  subsystemId : String
deriving DecidableEq

/-- The diagnostic info produced by `get_chromebook_info`. -/
structure ChromebookInfo where
  isChromebook : Bool
  motherboard : String
  chromebookDevices : List ChromebookDevice
deriving DecidableEq

/-- Source `get_chromebook_info` (lines 46-76). Note the motherboard
default is the literal string "Unknown", not the empty string. -/
def get_chromebook_info (ids : ChromebookIDs) (r : HardwareReport) : ChromebookInfo where
  isChromebook := is_chromebook ids r
  motherboard := mbName r "Unknown"
  chromebookDevices := (sysDevices r).filterMap fun d =>
    if deviceMatches ids d.2 then
      some ⟨d.1, d.2.deviceId.getD "", d.2.subsystemId.getD ""⟩
    else none

/-! ## Graphics substitution resolver
(source lines 78-180: `spoof_igpu_for_chromebook`) -/

/-- One row of the generation table: the acceptable identifier starts,
the substitute device id, platform tag and reason. -/
structure GenRule where
  starts : List String
  spoofedDeviceId : String
  platformId : String
  reason : String
deriving DecidableEq

/-- The ordered generation table of the `if/elif` chain in source lines
109-178, row by row. -/
def igpuRules : List GenRule :=
  [ ⟨["0A06", "0A16", "0A1E", "0A26", "0A2E"], "12040000", "0600260A",
      "Chromebook Haswell iGPU spoofing"⟩,
    ⟨["1606", "1616", "161E", "1626", "162B"], "16160000", "06002616",
      "Chromebook Broadwell iGPU spoofing"⟩,
    ⟨["1906", "1916", "191E", "1926", "192B"], "16190000", "00001619",
      "Chromebook Skylake iGPU spoofing"⟩,
    ⟨["5906", "5916", "591E", "5926", "5927"], "16590000", "00001659",
      "Chromebook Kaby Lake iGPU spoofing"⟩,
    ⟨["5A84", "5A85"], "5A850000", "00005A84",
      "Chromebook Apollo Lake iGPU spoofing"⟩,
    ⟨["3184", "3185"], "85310000", "00003185",
      "Chromebook Gemini Lake iGPU spoofing"⟩,
    ⟨["9B41", "9BA5", "9BA8"], "A53B0000", "0000A53B",
      "Chromebook Comet Lake iGPU spoofing"⟩,
    ⟨["8A51", "8A52", "8A5A"], "5A528A00", "00528A8A",
      "Chromebook Ice Lake iGPU spoofing"⟩ ]

/-- Source line 103: `device_id[5:] if len(device_id) >= 9 else device_id`. -/
def shortDeviceId (deviceId : String) : String :=
  if 9 ≤ deviceId.length then deviceId.drop 5 else deviceId

/-- Python `s.startswith((p1, p2, ...))`: true when `s` starts with one
of the listed strings. -/
def startsWithAny (s : String) (ps : List String) : Bool :=
  ps.any fun p => strStartsWith s p

/-- First-match-wins evaluation of the generation table. -/
def matchGenRule (idShort : String) : Option GenRule :=
  igpuRules.find? fun rule => startsWithAny idShort rule.starts

/-- One graphics substitution entry (`spoof_config[gpu_name]`). -/
structure IGpuSpoof where
  originalDeviceId : String
  spoofedDeviceId : String
  platformId : String
  reason : String
deriving DecidableEq

/-- Per-GPU body of the loop in `spoof_igpu_for_chromebook`: `none`
when the GPU is skipped (not Intel / not integrated) or no generation
rule matches; otherwise the entry built from the matched row. -/
def spoofGpuProps (props : GpuProps) : Option IGpuSpoof :=
  if !(strContains (props.manufacturer.getD "") "Intel")
      || !(strContains (props.deviceType.getD "") "Integrated") then
    none
  else
    match matchGenRule (shortDeviceId (props.deviceId.getD "")) with
    | some rule =>
        some ⟨props.deviceId.getD "", rule.spoofedDeviceId, rule.platformId, rule.reason⟩
    | none => none

/-- Source `spoof_igpu_for_chromebook` (lines 78-180). The macOS
version parameter is accepted and never consulted. -/
def spoof_igpu_for_chromebook (r : HardwareReport) (_macosVersion : String) :
    List (String × IGpuSpoof) :=
  (gpuList r).filterMap fun d => (spoofGpuProps d.2).map fun e => (d.1, e)

/-! ## Processor substitution resolver
(source lines 182-239: `spoof_cpu_for_chromebook`) -/

/-- One row of the codename table: the codename substrings that select
the row, the substitute processor name and the cpuid payload. -/
structure CpuRule where
  codenames : List String
  spoofAs : String
  cpuidData : String
deriving DecidableEq

/-- The ordered codename table of the `if/elif` chain in source lines
210-233, row by row. -/
def cpuRules : List CpuRule :=
  [ ⟨["Haswell"], "Core i5-4300U", "C3060300"⟩,
    ⟨["Broadwell"], "Core i5-5300U", "D4060300"⟩,
    ⟨["Skylake"], "Core i5-6300U", "E3060300"⟩,
    ⟨["Kaby Lake"], "Core i5-7300U", "E9060300"⟩,
    ⟨["Apollo Lake", "Goldmont"], "Core i3-7100U", "E9060300"⟩,
    ⟨["Gemini Lake"], "Core i3-8100", "EA060900"⟩,
    ⟨["Comet Lake"], "Core i5-10210U", "EC060A00"⟩,
    ⟨["Ice Lake"], "Core i5-1035G1", "E5060700"⟩ ]

/-- The processor substitution result: `spoof_as` and `cpuid_data` keys
exist only on the needs-spoofing path, hence `Option`. -/
structure CpuSpoofInfo where
  needsSpoofing : Bool
  originalCpu : String
  reason : String
  spoofAs : Option String
  cpuidData : Option String
deriving DecidableEq

/-- The reason string set at source line 207. -/
def lowEndReason : String :=
  "Chromebook low-end CPU detected (Celeron/Pentium)"

/-- Source `spoof_cpu_for_chromebook` (lines 182-239). -/
def spoof_cpu_for_chromebook (r : HardwareReport) : CpuSpoofInfo :=
  if strContains (cpuProcName r) "Celeron" || strContains (cpuProcName r) "Pentium" then
    match cpuRules.find? fun rule =>
        rule.codenames.any fun c => strContains (cpuCodename r) c with
    | some rule => ⟨true, cpuProcName r, lowEndReason, some rule.spoofAs, some rule.cpuidData⟩
    | none => ⟨true, cpuProcName r, lowEndReason, some "Core i5 (Generic)", some "E3060300"⟩
  else ⟨false, cpuProcName r, "", none, none⟩

/-! ## Report assembler
(source lines 241-290: `generate_chromebook_report`) -/

/-- The assembled spoofing report. `cpuSpoofing` is `none` when it is
still the initial empty dict (the non-Chromebook path). -/
structure ChromebookReport where
  isChromebook : Bool
  chromebookInfo : ChromebookInfo
  igpuSpoofing : List (String × IGpuSpoof)
  cpuSpoofing : Option CpuSpoofInfo
  recommendations : List String
deriving DecidableEq

/-- Recommendation appended at source line 268. -/
def quirkNote : String :=
  "Chromebook detected - ProtectMemoryRegions quirk will be enabled"

/-- Recommendation appended at source line 273. -/
def igpuNote : String :=
  "iGPU spoofing required for proper graphics acceleration"

/-- Recommendation appended at source line 278, naming the substitute. -/
def cpuNote (s : CpuSpoofInfo) : String :=
  "CPU will be spoofed as " ++ s.spoofAs.getD "supported model"

/-- Recommendation appended at source line 282. -/
def firmwareNote : String :=
  "Ensure you have disabled firmware write protection before installation"

/-- Recommendation appended at source line 286. -/
def acpiNote : String :=
  "ChromeOS firmware may require additional ACPI patches"

/-- Source `generate_chromebook_report` (lines 241-290). -/
def generate_chromebook_report (ids : ChromebookIDs) (r : HardwareReport)
    (macosVersion : String) : ChromebookReport :=
  if is_chromebook ids r then
    ⟨is_chromebook ids r, get_chromebook_info ids r,
      spoof_igpu_for_chromebook r macosVersion,
      some (spoof_cpu_for_chromebook r),
      [quirkNote]
        ++ (if (spoof_igpu_for_chromebook r macosVersion).isEmpty then [] else [igpuNote])
        ++ (if (spoof_cpu_for_chromebook r).needsSpoofing then
              [cpuNote (spoof_cpu_for_chromebook r)] else [])
        ++ [firmwareNote, acpiNote]⟩
  else
    ⟨is_chromebook ids r, get_chromebook_info ids r, [], none, []⟩

/-! ## Auxiliary definitions for the theorems -/

/-- A hardware report with every section absent. -/
def emptyReport : HardwareReport := ⟨none, none, none, none⟩

/-- Replacement of every absent section and field of a report by the
empty-string / empty-mapping defaults, keeping present values. Used to
express that an accessor treats absence as the empty default. -/
def fillEmpty (r : HardwareReport) : HardwareReport :=
  ⟨some ⟨some (mbName r "")⟩,
   some ((sysDevices r).map fun d =>
     (d.1, ⟨some (d.2.deviceId.getD ""), some (d.2.subsystemId.getD "")⟩)),
   some ((gpuList r).map fun d =>
     (d.1, ⟨some (d.2.manufacturer.getD ""), some (d.2.deviceId.getD ""),
            some (d.2.deviceType.getD "")⟩)),
   some ⟨some (cpuProcName r), some (cpuCodename r)⟩⟩

/-- Sample Intel integrated Haswell GPU. -/
def gpuHaswell : GpuProps := ⟨some "Intel", some "8086-0A06", some "Integrated GPU"⟩

/-- Report holding just the sample Haswell GPU. -/
def rHaswell : HardwareReport := ⟨none, none, some [("iGPU", gpuHaswell)], none⟩

/-- Sample Intel integrated Gemini Lake GPU. -/
def gpuGemini : GpuProps := ⟨some "Intel Corporation", some "8086-3184", some "Integrated"⟩

/-- Report holding just the sample Gemini Lake GPU. -/
def rGemini : HardwareReport := ⟨none, none, some [("iGPU", gpuGemini)], none⟩

/-- Report with a Celeron processor of codename Gemini Lake. -/
def rCeleron : HardwareReport :=
  ⟨none, none, none, some ⟨some "Celeron N4020", some "Gemini Lake"⟩⟩

/-- Report with a Core i7 processor (neither Celeron nor Pentium). -/
def rCorei7 : HardwareReport :=
  ⟨none, none, none, some ⟨some "Core i7-1065G7", some "Ice Lake"⟩⟩

/-- Fully qualifying report: Google motherboard, Haswell iGPU,
Celeron/Gemini Lake processor. -/
def rFull : HardwareReport :=
  ⟨some ⟨some "Google Eve"⟩, none, some [("iGPU", gpuHaswell)],
   some ⟨some "Celeron N4020", some "Gemini Lake"⟩⟩

/-! ## Helper lemmas -/

/-- In an association list with pairwise distinct keys, a key determines
its value. -/
theorem key_eq_of_nodup {α β : Type} {l : List (α × β)}
    (h : (l.map Prod.fst).Nodup) {a : α} {b1 b2 : β}
    (h1 : (a, b1) ∈ l) (h2 : (a, b2) ∈ l) : b1 = b2 := by
  induction l with
  | nil => cases h1
  | cons x t ih =>
    simp only [List.map_cons, List.nodup_cons] at h
    rcases List.mem_cons.mp h1 with e1 | m1
    · rcases List.mem_cons.mp h2 with e2 | m2
      · have : (a, b1) = (a, b2) := e1.trans e2.symm
        exact (Prod.mk.injEq _ _ _ _ ▸ this).2
      · exfalso
        apply h.1
        rw [← e1]
        exact List.mem_map.mpr ⟨(a, b2), m2, rfl⟩
    · rcases List.mem_cons.mp h2 with e2 | m2
      · exfalso
        apply h.1
        rw [← e2]
        exact List.mem_map.mpr ⟨(a, b1), m1, rfl⟩
      · exact ih h.2 m1 m2

/-- Membership in the graphics substitution output, characterized by the
per-GPU function. -/
theorem mem_spoof_igpu {r : HardwareReport} {v name : String} {e : IGpuSpoof} :
    (name, e) ∈ spoof_igpu_for_chromebook r v ↔
      ∃ p, (name, p) ∈ gpuList r ∧ spoofGpuProps p = some e := by
  unfold spoof_igpu_for_chromebook
  rw [List.mem_filterMap]
  constructor
  · rintro ⟨⟨n, p⟩, hm, hf⟩
    rcases Option.map_eq_some'.mp hf with ⟨e2, he2, heq⟩
    cases heq
    exact ⟨p, hm, he2⟩
  · rintro ⟨p, hm, hs⟩
    refine ⟨(name, p), hm, ?_⟩
    rw [hs]
    rfl

/-- Characterization of the per-GPU substitution function. -/
theorem spoofGpuProps_eq_some {p : GpuProps} {e : IGpuSpoof} :
    spoofGpuProps p = some e ↔
      strContains (p.manufacturer.getD "") "Intel" = true ∧
      strContains (p.deviceType.getD "") "Integrated" = true ∧
      ∃ rule, matchGenRule (shortDeviceId (p.deviceId.getD "")) = some rule ∧
        e = ⟨p.deviceId.getD "", rule.spoofedDeviceId, rule.platformId, rule.reason⟩ := by
  unfold spoofGpuProps
  cases hI : strContains (p.manufacturer.getD "") "Intel"
  · simp [hI]
  · cases hT : strContains (p.deviceType.getD "") "Integrated"
    · simp [hI, hT]
    · simp only [hI, hT, Bool.not_true, Bool.or_self, Bool.false_or, if_false, true_and]
      cases hM : matchGenRule (shortDeviceId (p.deviceId.getD "")) <;> simp [hM, eq_comm]

/-- Characterization of the device-matching predicate of the detector
and the enumerator. -/
theorem deviceMatches_eq_true {ids : ChromebookIDs} {p : DeviceProps} :
    deviceMatches ids p = true ↔
      ∃ subs, lookupIDs ids (p.deviceId.getD "") = some subs ∧
        subs.contains (p.subsystemId.getD "") = true := by
  unfold deviceMatches
  cases h : lookupIDs ids (p.deviceId.getD "") <;> simp [h]

/-- Mapping then testing equals testing the composite, pointwise. -/
theorem any_comp_eq {α β : Type} (l : List α) (f : α → β) (p : β → Bool) (q : α → Bool)
    (h : ∀ a, p (f a) = q a) : (l.map f).any p = l.any q := by
  induction l with
  | nil => rfl
  | cons x t ih => simp [ih, h]

/-- Mapping then filter-mapping equals filter-mapping the composite,
pointwise. -/
theorem filterMap_comp_eq {α β γ : Type} (l : List α) (f : α → β)
    (p : β → Option γ) (q : α → Option γ) (h : ∀ a, p (f a) = q a) :
    (l.map f).filterMap p = l.filterMap q := by
  induction l with
  | nil => rfl
  | cons x t ih => simp only [List.map_cons, List.filterMap_cons, ih, h]

/-! ## Claim theorems -/

/-- C2, counterexample to the claim as stated: the generation identifier
of a 10-character device identifier is its last 5 characters (Python
`device_id[5:]`), not its trailing 4 characters. -/
theorem short_device_id_counterexample :
    9 ≤ ("8086-12345" : String).length ∧
    shortDeviceId "8086-12345" ≠
      ("8086-12345" : String).drop (("8086-12345" : String).length - 4) := by
  decide

/-- C2, amended: the generation identifier equals the device identifier
with its first 5 characters removed whenever the length is at least 9
(coinciding with the trailing 4 characters exactly for the canonical
9-character form), and equals the identifier unmodified whenever the
length is less than 9. -/
theorem short_device_id_amended (s : String) :
    (9 ≤ s.length → shortDeviceId s = s.drop 5) ∧
    (s.length < 9 → shortDeviceId s = s) ∧
    (s.length = 9 → shortDeviceId s = s.drop (s.length - 4)) := by
  refine ⟨fun h => ?_, fun h => ?_, fun h => ?_⟩
  · simp [shortDeviceId, h]
  · simp [shortDeviceId, Nat.not_le.mpr h]
  · simp [shortDeviceId, h]

/-- C2, witness: the amended rule evaluated on a canonical 9-character
identifier and on a short identifier. -/
theorem short_device_id_amended_witness :
    shortDeviceId "8086-1916" = "1916" ∧ shortDeviceId "1916" = "1916" := by
  constructor
  · rw [(short_device_id_amended "8086-1916").1 (by decide)]
    decide
  · exact (short_device_id_amended "1916").2.1 (by decide)

/-- C3, counterexample to the claim as stated: on a Celeron processor
the resolver's reason string is the source literal, not
"low-end processor family detected". -/
theorem cpu_reason_counterexample :
    (spoof_cpu_for_chromebook rCeleron).needsSpoofing = true ∧
    (spoof_cpu_for_chromebook rCeleron).reason ≠ "low-end processor family detected" := by
  decide

/-- C3, amended: when the processor name contains neither "Celeron" nor
"Pentium", the resolver returns needs-substitution false with the
original name and an empty reason; otherwise it returns
needs-substitution true with the original name and reason exactly
"Chromebook low-end CPU detected (Celeron/Pentium)". -/
theorem cpu_gate_amended (r : HardwareReport) :
    (strContains (cpuProcName r) "Celeron" = false →
      strContains (cpuProcName r) "Pentium" = false →
      spoof_cpu_for_chromebook r = ⟨false, cpuProcName r, "", none, none⟩) ∧
    (strContains (cpuProcName r) "Celeron" = true ∨
        strContains (cpuProcName r) "Pentium" = true →
      (spoof_cpu_for_chromebook r).needsSpoofing = true ∧
      (spoof_cpu_for_chromebook r).originalCpu = cpuProcName r ∧
      (spoof_cpu_for_chromebook r).reason =
        "Chromebook low-end CPU detected (Celeron/Pentium)") := by
  constructor
  · intro h1 h2
    simp [spoof_cpu_for_chromebook, h1, h2]
  · intro h
    have hb : (strContains (cpuProcName r) "Celeron"
        || strContains (cpuProcName r) "Pentium") = true := by
      rcases h with h | h <;> simp [h]
    unfold spoof_cpu_for_chromebook
    simp only [hb, if_true]
    cases hF : cpuRules.find? fun rule =>
        rule.codenames.any fun c => strContains (cpuCodename r) c <;>
      simp [hF, lowEndReason]

/-- C3, witness: the amended gate evaluated on a Core i7 record (no
substitution) and on a Celeron record (substitution with the source's
reason string). -/
theorem cpu_gate_amended_witness :
    spoof_cpu_for_chromebook rCorei7 = ⟨false, "Core i7-1065G7", "", none, none⟩ ∧
    (spoof_cpu_for_chromebook rCeleron).reason =
      "Chromebook low-end CPU detected (Celeron/Pentium)" := by
  constructor
  · exact (cpu_gate_amended rCorei7).1 (by decide) (by decide)
  · exact ((cpu_gate_amended rCeleron).2 (Or.inl (by decide))).2.2

/-- C5: the detector returns true exactly when the upper-cased
motherboard name contains "GOOGLE" (Rule A) or some system device's
identifier is a key of the reference dataset with its subsystem
identifier in the associated set (Rule B); otherwise false. -/
theorem is_chromebook_iff (ids : ChromebookIDs) (r : HardwareReport) :
    is_chromebook ids r = true ↔
      strContains (strUpper (mbName r "")) "GOOGLE" = true ∨
      ∃ d ∈ sysDevices r, ∃ subs,
        lookupIDs ids (d.2.deviceId.getD "") = some subs ∧
        subs.contains (d.2.subsystemId.getD "") = true := by
  by_cases hA : strContains (strUpper (mbName r "")) "GOOGLE" = true
  · simp [is_chromebook, hA]
  · rw [Bool.not_eq_true] at hA
    simp only [is_chromebook, hA, Bool.false_eq_true, if_false, false_or,
      List.any_eq_true, deviceMatches_eq_true]

/-- C6: when the detector returns false, the assembled report has an
empty graphics substitution map, the default (absent) processor
substitution section, and an empty recommendation list. -/
theorem not_chromebook_report_empty (ids : ChromebookIDs) (r : HardwareReport)
    (v : String) (h : is_chromebook ids r = false) :
    (generate_chromebook_report ids r v).igpuSpoofing = [] ∧
    (generate_chromebook_report ids r v).cpuSpoofing = none ∧
    (generate_chromebook_report ids r v).recommendations = [] := by
  simp [generate_chromebook_report, h]

/-- C6, witness: the fully absent report is not detected and yields the
empty report sections. -/
theorem not_chromebook_report_empty_witness :
    is_chromebook [] emptyReport = false ∧
    (generate_chromebook_report [] emptyReport "23").igpuSpoofing = [] ∧
    (generate_chromebook_report [] emptyReport "23").cpuSpoofing = none ∧
    (generate_chromebook_report [] emptyReport "23").recommendations = [] :=
  ⟨by decide, not_chromebook_report_empty [] emptyReport "23" (by decide)⟩

/-- C9: the graphics resolver and the report assembler give identical
results for any two target-OS-version tokens; the parameter is accepted
but consulted by no rule. -/
theorem macos_version_ignored (ids : ChromebookIDs) (r : HardwareReport)
    (v1 v2 : String) :
    spoof_igpu_for_chromebook r v1 = spoof_igpu_for_chromebook r v2 ∧
    generate_chromebook_report ids r v1 = generate_chromebook_report ids r v2 :=
  ⟨rfl, rfl⟩

/-- C10: when the Motherboard section or its Name field is absent, the
diagnostic info records the motherboard as the literal "Unknown", while
the detector behaves as if the name were the empty string. -/
theorem missing_motherboard_unknown (ids : ChromebookIDs) (r : HardwareReport)
    (h : r.motherboard = none ∨ ∃ m, r.motherboard = some m ∧ m.name = none) :
    (get_chromebook_info ids r).motherboard = "Unknown" ∧
    is_chromebook ids r =
      is_chromebook ids ⟨some ⟨some ""⟩, r.systemDevices, r.gpu, r.cpu⟩ := by
  have hmb : ∀ d : String, mbName r d = d := by
    intro d
    rcases h with h | ⟨m, hm, hn⟩
    · simp [mbName, h]
    · simp [mbName, hm, hn]
  constructor
  · show mbName r "Unknown" = "Unknown"
    exact hmb "Unknown"
  · unfold is_chromebook
    rw [hmb ""]
    rfl

/-- C10, witness: the fully absent report records motherboard "Unknown". -/
theorem missing_motherboard_unknown_witness :
    (get_chromebook_info [] emptyReport).motherboard = "Unknown" :=
  (missing_motherboard_unknown [] emptyReport (Or.inl rfl)).1

/-- Report with a Celeron processor of unrecognized codename. -/
def rCeleronXYZ : HardwareReport :=
  ⟨none, none, none, some ⟨some "Celeron N4020", some "XYZ"⟩⟩

/-- C1: a GPU entry of a report (with distinct GPU names) has an entry
in the graphics resolver output exactly when its manufacturer contains
"Intel", its device type contains "Integrated", and its extracted
generation identifier matches a row of the ordered generation table
(first match wins, via `matchGenRule`); the entry then carries exactly
the matched row's substitute device identifier, platform tag and
reason. -/
theorem igpu_spoof_entry_iff (r : HardwareReport) (v name : String) (props : GpuProps)
    (hmem : (name, props) ∈ gpuList r)
    (hkeys : ((gpuList r).map Prod.fst).Nodup) :
    ((∃ e, (name, e) ∈ spoof_igpu_for_chromebook r v) ↔
      strContains (props.manufacturer.getD "") "Intel" = true ∧
      strContains (props.deviceType.getD "") "Integrated" = true ∧
      (matchGenRule (shortDeviceId (props.deviceId.getD ""))).isSome = true) ∧
    (∀ rule, strContains (props.manufacturer.getD "") "Intel" = true →
      strContains (props.deviceType.getD "") "Integrated" = true →
      matchGenRule (shortDeviceId (props.deviceId.getD "")) = some rule →
      (name, ⟨props.deviceId.getD "", rule.spoofedDeviceId, rule.platformId,
        rule.reason⟩) ∈ spoof_igpu_for_chromebook r v) := by
  constructor
  · constructor
    · rintro ⟨e, he⟩
      rcases mem_spoof_igpu.mp he with ⟨p, hm2, hs⟩
      have hpp : p = props := key_eq_of_nodup hkeys hm2 hmem
      rw [hpp] at hs
      rcases spoofGpuProps_eq_some.mp hs with ⟨hI, hT, rule, hM, hE⟩
      refine ⟨hI, hT, ?_⟩
      rw [hM]
      rfl
    · rintro ⟨hI, hT, hSome⟩
      rcases Option.isSome_iff_exists.mp hSome with ⟨rule, hM⟩
      exact ⟨⟨props.deviceId.getD "", rule.spoofedDeviceId, rule.platformId, rule.reason⟩,
        mem_spoof_igpu.mpr ⟨props, hmem, spoofGpuProps_eq_some.mpr ⟨hI, hT, rule, hM, rfl⟩⟩⟩
  · intro rule hI hT hM
    exact mem_spoof_igpu.mpr ⟨props, hmem, spoofGpuProps_eq_some.mpr ⟨hI, hT, rule, hM, rfl⟩⟩

/-- C1, witness: a Haswell-generation Intel integrated GPU receives
substitute id 12040000 with tag 0600260A, and a Gemini Lake one
receives 85310000 with tag 00003185. -/
theorem igpu_spoof_entry_iff_witness :
    ("iGPU", (⟨"8086-0A06", "12040000", "0600260A",
        "Chromebook Haswell iGPU spoofing"⟩ : IGpuSpoof)) ∈
      spoof_igpu_for_chromebook rHaswell "23" ∧
    ("iGPU", (⟨"8086-3184", "85310000", "00003185",
        "Chromebook Gemini Lake iGPU spoofing"⟩ : IGpuSpoof)) ∈
      spoof_igpu_for_chromebook rGemini "23" := by
  constructor
  · exact (igpu_spoof_entry_iff rHaswell "23" "iGPU" gpuHaswell (by decide) (by decide)).2
      ⟨["0A06", "0A16", "0A1E", "0A26", "0A2E"], "12040000", "0600260A",
        "Chromebook Haswell iGPU spoofing"⟩ (by decide) (by decide) (by decide)
  · exact (igpu_spoof_entry_iff rGemini "23" "iGPU" gpuGemini (by decide) (by decide)).2
      ⟨["3184", "3185"], "85310000", "00003185",
        "Chromebook Gemini Lake iGPU spoofing"⟩ (by decide) (by decide) (by decide)

/-- C4: on a Celeron/Pentium record the substitute identity follows the
ordered codename table with first-match-wins, and an unrecognized
codename receives the generic fallback. -/
theorem cpu_substitute_table (r : HardwareReport)
    (hLow : strContains (cpuProcName r) "Celeron" = true ∨
      strContains (cpuProcName r) "Pentium" = true) :
    (strContains (cpuCodename r) "Haswell" = true →
      (spoof_cpu_for_chromebook r).spoofAs = some "Core i5-4300U" ∧
      (spoof_cpu_for_chromebook r).cpuidData = some "C3060300") ∧
    (strContains (cpuCodename r) "Haswell" = false →
      strContains (cpuCodename r) "Broadwell" = true →
      (spoof_cpu_for_chromebook r).spoofAs = some "Core i5-5300U" ∧
      (spoof_cpu_for_chromebook r).cpuidData = some "D4060300") ∧
    (strContains (cpuCodename r) "Haswell" = false →
      strContains (cpuCodename r) "Broadwell" = false →
      strContains (cpuCodename r) "Skylake" = true →
      (spoof_cpu_for_chromebook r).spoofAs = some "Core i5-6300U" ∧
      (spoof_cpu_for_chromebook r).cpuidData = some "E3060300") ∧
    (strContains (cpuCodename r) "Haswell" = false →
      strContains (cpuCodename r) "Broadwell" = false →
      strContains (cpuCodename r) "Skylake" = false →
      strContains (cpuCodename r) "Kaby Lake" = true →
      (spoof_cpu_for_chromebook r).spoofAs = some "Core i5-7300U" ∧
      (spoof_cpu_for_chromebook r).cpuidData = some "E9060300") ∧
    (strContains (cpuCodename r) "Haswell" = false →
      strContains (cpuCodename r) "Broadwell" = false →
      strContains (cpuCodename r) "Skylake" = false →
      strContains (cpuCodename r) "Kaby Lake" = false →
      (strContains (cpuCodename r) "Apollo Lake" = true ∨
        strContains (cpuCodename r) "Goldmont" = true) →
      (spoof_cpu_for_chromebook r).spoofAs = some "Core i3-7100U" ∧
      (spoof_cpu_for_chromebook r).cpuidData = some "E9060300") ∧
    (strContains (cpuCodename r) "Haswell" = false →
      strContains (cpuCodename r) "Broadwell" = false →
      strContains (cpuCodename r) "Skylake" = false →
      strContains (cpuCodename r) "Kaby Lake" = false →
      strContains (cpuCodename r) "Apollo Lake" = false →
      strContains (cpuCodename r) "Goldmont" = false →
      strContains (cpuCodename r) "Gemini Lake" = true →
      (spoof_cpu_for_chromebook r).spoofAs = some "Core i3-8100" ∧
      (spoof_cpu_for_chromebook r).cpuidData = some "EA060900") ∧
    (strContains (cpuCodename r) "Haswell" = false →
      strContains (cpuCodename r) "Broadwell" = false →
      strContains (cpuCodename r) "Skylake" = false →
      strContains (cpuCodename r) "Kaby Lake" = false →
      strContains (cpuCodename r) "Apollo Lake" = false →
      strContains (cpuCodename r) "Goldmont" = false →
      strContains (cpuCodename r) "Gemini Lake" = false →
      strContains (cpuCodename r) "Comet Lake" = true →
      (spoof_cpu_for_chromebook r).spoofAs = some "Core i5-10210U" ∧
      (spoof_cpu_for_chromebook r).cpuidData = some "EC060A00") ∧
    (strContains (cpuCodename r) "Haswell" = false →
      strContains (cpuCodename r) "Broadwell" = false →
      strContains (cpuCodename r) "Skylake" = false →
      strContains (cpuCodename r) "Kaby Lake" = false →
      strContains (cpuCodename r) "Apollo Lake" = false →
      strContains (cpuCodename r) "Goldmont" = false →
      strContains (cpuCodename r) "Gemini Lake" = false →
      strContains (cpuCodename r) "Comet Lake" = false →
      strContains (cpuCodename r) "Ice Lake" = true →
      (spoof_cpu_for_chromebook r).spoofAs = some "Core i5-1035G1" ∧
      (spoof_cpu_for_chromebook r).cpuidData = some "E5060700") ∧
    (strContains (cpuCodename r) "Haswell" = false →
      strContains (cpuCodename r) "Broadwell" = false →
      strContains (cpuCodename r) "Skylake" = false →
      strContains (cpuCodename r) "Kaby Lake" = false →
      strContains (cpuCodename r) "Apollo Lake" = false →
      strContains (cpuCodename r) "Goldmont" = false →
      strContains (cpuCodename r) "Gemini Lake" = false →
      strContains (cpuCodename r) "Comet Lake" = false →
      strContains (cpuCodename r) "Ice Lake" = false →
      (spoof_cpu_for_chromebook r).spoofAs = some "Core i5 (Generic)" ∧
      (spoof_cpu_for_chromebook r).cpuidData = some "E3060300") := by
  have hb : (strContains (cpuProcName r) "Celeron"
      || strContains (cpuProcName r) "Pentium") = true := by
    rcases hLow with h | h <;> simp [h]
  refine ⟨fun h1 => ?_, fun h1 h2 => ?_, fun h1 h2 h3 => ?_, fun h1 h2 h3 h4 => ?_,
    fun h1 h2 h3 h4 h5 => ?_, fun h1 h2 h3 h4 h5 h6 h7 => ?_,
    fun h1 h2 h3 h4 h5 h6 h7 h8 => ?_, fun h1 h2 h3 h4 h5 h6 h7 h8 h9 => ?_,
    fun h1 h2 h3 h4 h5 h6 h7 h8 h9 => ?_⟩
  · simp [spoof_cpu_for_chromebook, cpuRules, hb, h1, List.find?]
  · simp [spoof_cpu_for_chromebook, cpuRules, hb, h1, h2, List.find?]
  · simp [spoof_cpu_for_chromebook, cpuRules, hb, h1, h2, h3, List.find?]
  · simp [spoof_cpu_for_chromebook, cpuRules, hb, h1, h2, h3, h4, List.find?]
  · rcases h5 with h5 | h5 <;>
      simp [spoof_cpu_for_chromebook, cpuRules, hb, h1, h2, h3, h4, h5, List.find?]
  · simp [spoof_cpu_for_chromebook, cpuRules, hb, h1, h2, h3, h4, h5, h6, h7, List.find?]
  · simp [spoof_cpu_for_chromebook, cpuRules, hb, h1, h2, h3, h4, h5, h6, h7, h8, List.find?]
  · simp [spoof_cpu_for_chromebook, cpuRules, hb, h1, h2, h3, h4, h5, h6, h7, h8, h9,
      List.find?]
  · simp [spoof_cpu_for_chromebook, cpuRules, hb, h1, h2, h3, h4, h5, h6, h7, h8, h9,
      List.find?]

/-- C4, witness: a Celeron with codename "Gemini Lake" is substituted by
Core i3-8100 / EA060900; the same name with codename "XYZ" receives the
generic fallback Core i5 (Generic) / E3060300. -/
theorem cpu_substitute_table_witness :
    (spoof_cpu_for_chromebook rCeleron).spoofAs = some "Core i3-8100" ∧
    (spoof_cpu_for_chromebook rCeleron).cpuidData = some "EA060900" ∧
    (spoof_cpu_for_chromebook rCeleronXYZ).spoofAs = some "Core i5 (Generic)" ∧
    (spoof_cpu_for_chromebook rCeleronXYZ).cpuidData = some "E3060300" := by
  have hG := (cpu_substitute_table rCeleron (Or.inl (by decide))).2.2.2.2.2.1
    (by decide) (by decide) (by decide) (by decide) (by decide) (by decide) (by decide)
  have hX := (cpu_substitute_table rCeleronXYZ (Or.inl (by decide))).2.2.2.2.2.2.2.2
    (by decide) (by decide) (by decide) (by decide) (by decide) (by decide) (by decide)
    (by decide) (by decide)
  exact ⟨hG.1, hG.2, hX.1, hX.2⟩

/-- C7: on a detected record the recommendation list is, in order, the
quirk note, the graphics note exactly when the graphics substitution
map is non-empty, the processor note naming the substitute exactly when
needs-substitution holds, the firmware note, and the ACPI note. -/
theorem chromebook_recommendation_order (ids : ChromebookIDs) (r : HardwareReport)
    (v : String) (h : is_chromebook ids r = true) :
    (spoof_igpu_for_chromebook r v ≠ [] →
      (spoof_cpu_for_chromebook r).needsSpoofing = true →
      (generate_chromebook_report ids r v).recommendations =
        [quirkNote, igpuNote, cpuNote (spoof_cpu_for_chromebook r),
          firmwareNote, acpiNote]) ∧
    (spoof_igpu_for_chromebook r v ≠ [] →
      (spoof_cpu_for_chromebook r).needsSpoofing = false →
      (generate_chromebook_report ids r v).recommendations =
        [quirkNote, igpuNote, firmwareNote, acpiNote]) ∧
    (spoof_igpu_for_chromebook r v = [] →
      (spoof_cpu_for_chromebook r).needsSpoofing = true →
      (generate_chromebook_report ids r v).recommendations =
        [quirkNote, cpuNote (spoof_cpu_for_chromebook r), firmwareNote, acpiNote]) ∧
    (spoof_igpu_for_chromebook r v = [] →
      (spoof_cpu_for_chromebook r).needsSpoofing = false →
      (generate_chromebook_report ids r v).recommendations =
        [quirkNote, firmwareNote, acpiNote]) := by
  have hE : ∀ _ : spoof_igpu_for_chromebook r v ≠ [],
      (spoof_igpu_for_chromebook r v).isEmpty = false := by
    intro h1
    cases hE2 : (spoof_igpu_for_chromebook r v).isEmpty
    · rfl
    · exact absurd (List.isEmpty_iff.mp hE2) h1
  refine ⟨fun h1 h2 => ?_, fun h1 h2 => ?_, fun h1 h2 => ?_, fun h1 h2 => ?_⟩
  · simp [generate_chromebook_report, h, hE h1, h2]
  · simp [generate_chromebook_report, h, hE h1, h2]
  · simp [generate_chromebook_report, h, h1, h2]
  · simp [generate_chromebook_report, h, h1, h2]

/-- C7, witness: a fully qualifying record (Google motherboard, Haswell
iGPU, Celeron processor) yields exactly the 5-item list in the fixed
order, with the processor note naming Core i3-8100. -/
theorem chromebook_recommendation_order_witness :
    (generate_chromebook_report [] rFull "23").recommendations =
      [quirkNote, igpuNote, "CPU will be spoofed as Core i3-8100",
        firmwareNote, acpiNote] := by
  have h := (chromebook_recommendation_order [] rFull "23" (by decide)).1
    (by decide) (by decide)
  rw [h]
  decide

/-- C8, counterexample to the claim as stated: the device enumerator
does not treat the absent motherboard name as the empty string — on the
fully absent report its diagnostic differs from the diagnostic of the
same report with all absences replaced by empty defaults (motherboard
"Unknown" versus ""). -/
theorem defaults_counterexample :
    get_chromebook_info [] (fillEmpty emptyReport) ≠ get_chromebook_info [] emptyReport := by
  decide

/-- C8, amended: every function is total and treats absent sections and
fields as the empty-string / empty-mapping defaults — replacing every
absence by those defaults changes no result — except that the
enumerator's diagnostic motherboard field defaults to "Unknown"; the
assembled report always carries the detector's verdict. -/
theorem defaults_amended (ids : ChromebookIDs) (r : HardwareReport) (v : String) :
    is_chromebook ids (fillEmpty r) = is_chromebook ids r ∧
    spoof_igpu_for_chromebook (fillEmpty r) v = spoof_igpu_for_chromebook r v ∧
    spoof_cpu_for_chromebook (fillEmpty r) = spoof_cpu_for_chromebook r ∧
    (get_chromebook_info ids (fillEmpty r)).isChromebook =
      (get_chromebook_info ids r).isChromebook ∧
    (get_chromebook_info ids (fillEmpty r)).chromebookDevices =
      (get_chromebook_info ids r).chromebookDevices ∧
    (get_chromebook_info ids (fillEmpty r)).motherboard = mbName r "" ∧
    (get_chromebook_info ids r).motherboard = mbName r "Unknown" ∧
    (generate_chromebook_report ids r v).isChromebook = is_chromebook ids r := by
  have h1 : is_chromebook ids (fillEmpty r) = is_chromebook ids r := by
    unfold is_chromebook
    have hmb : mbName (fillEmpty r) "" = mbName r "" := rfl
    rw [hmb]
    by_cases hc : strContains (strUpper (mbName r "")) "GOOGLE" = true
    · simp [hc]
    · rw [Bool.not_eq_true] at hc
      simp only [hc, Bool.false_eq_true, if_false]
      exact any_comp_eq (sysDevices r) _ _ _ (fun a => rfl)
  refine ⟨h1, ?_, rfl, h1, ?_, rfl, rfl, ?_⟩
  · unfold spoof_igpu_for_chromebook
    exact filterMap_comp_eq (gpuList r) _ _ _ (fun a => rfl)
  · show (sysDevices (fillEmpty r)).filterMap _ = (sysDevices r).filterMap _
    exact filterMap_comp_eq (sysDevices r) _ _ _ (fun a => rfl)
  · by_cases hcb : is_chromebook ids r = true
    · simp [generate_chromebook_report, hcb]
    · rw [Bool.not_eq_true] at hcb
      simp [generate_chromebook_report, hcb]
